import Mathlib

/-
Formal model of the airline sentiment dashboard (src/app.py).

The model covers the logical core of the application: the record store
loaded from the dataset, the filtering pipeline of render_main_content,
the metric and timeseries aggregation, the per-sentiment text corpus,
and the threshold rule of analyze_sentiment.  Timestamps are modelled at
day granularity (the only granularity the filters and the timeseries
use), Python floats by exact rationals, pandas NaN cells by Option.none,
and raised Python exceptions by Except.error.
-/

/-- One stored observation, a row of the dataset: free text, airline
label, ground-truth sentiment label, creation timestamp (modelled as a
day ordinal). -/
structure Record where
  text : String
  airline : String
  sentiment : String
  created_at : Int
deriving DecidableEq, Repr

/-- The immutable record store resulting from a successful load. -/
structure Store where
  records : List Record
deriving DecidableEq, Repr

/-- The user-selected predicate combination held in session state
(app.py lines 17-23): selected_airline, date_range (None or a sequence
of dates), sentiment_filter (a list of sentiment labels). -/
structure FilterState where
  airline : String
  date_range : Option (List Int)
  sentiment_set : List String
deriving DecidableEq, Repr

/-- Airline predicate, app.py lines 180-181: when the selection differs
from the literal string All, keep only rows whose airline column equals
the selection; the selection All applies no restriction. -/
def airlineStep (sel : String) (l : List Record) : List Record :=
  if sel ≠ "All" then l.filter (fun r => r.airline == sel) else l

/-- Date predicate, app.py lines 183-188: Python first evaluates
len(date_range), which raises TypeError when date_range is None; when
the length is exactly 2 the pair is unpacked into start and end and rows
are kept whose created_at date lies in the inclusive range; any other
length leaves the data unfiltered. -/
def dateStep (dr : Option (List Int)) (l : List Record) : Except String (List Record) :=
  match dr with
  | none => Except.error "TypeError: object of type NoneType has no len"
  | some [a, b] =>
      Except.ok (l.filter (fun r => decide (a ≤ r.created_at) && decide (r.created_at ≤ b)))
  | some _ => Except.ok l

/-- Sentiment predicate, app.py lines 190-191: the isin restriction runs
only when the selected sentiment list is truthy, that is non-empty; an
empty selection skips the restriction entirely. -/
def sentimentStep (ss : List String) (l : List Record) : List Record :=
  if ss = [] then l else l.filter (fun r => ss.contains r.sentiment)

/-- Filter Engine: the filtering pipeline of render_main_content, app.py
lines 176-191 — airline restriction, then date range, then sentiment
set, applied in that order to a copy of the store. -/
def applyFilters (s : Store) (f : FilterState) : Except String (List Record) :=
  match dateStep f.date_range (airlineStep f.airline s.records) with
  | Except.error e => Except.error e
  | Except.ok l => Except.ok (sentimentStep f.sentiment_set l)

/-- Count of filtered records carrying the given ground-truth sentiment
(app.py lines 204, 207, 210). -/
def countBy (l : List Record) (s : String) : Nat :=
  (l.filter (fun r => r.sentiment == s)).length

/-- Share displayed for one sentiment (app.py lines 205, 208, 211): the
code divides the sentiment count by len(filtered_data) with no guard, so
a zero-record denominator raises ZeroDivisionError. -/
def shareFor (l : List Record) (s : String) : Except String ℚ :=
  if l.length = 0 then Except.error "ZeroDivisionError: division by zero"
  else Except.ok ((countBy l s : ℚ) / (l.length : ℚ))

/-- Mathematical value of the share when the denominator is non-zero. -/
def shareVal (l : List Record) (s : String) : ℚ :=
  (countBy l s : ℚ) / (l.length : ℚ)

/-- Number of filtered records on calendar day d carrying sentiment s:
one entry of the value_counts table built on app.py line 218. -/
def countOn (l : List Record) (d : Int) (s : String) : Nat :=
  (l.filter (fun r => r.created_at == d && r.sentiment == s)).length

/-- Day index of the unstacked timeseries of app.py line 218: resample
followed by value_counts lists only (day, sentiment) pairs backed by at
least one row, so the unstacked row index holds exactly the distinct
days that carry records, in ascending order. -/
def timeDays (l : List Record) : List Int :=
  ((l.map (fun r => r.created_at)).mergeSort (fun a b => decide (a ≤ b))).dedup

/-- One cell of time_df after unstack (app.py line 218): the count when
the (day, sentiment) pair occurs in the filtered data, NaN (modelled as
none) when it does not. -/
def timeCell (l : List Record) (d : Int) (s : String) : Option Nat :=
  if countOn l d s = 0 then none else some (countOn l d s)

/-- Text Aggregator, app.py lines 261-263: the text fields of the
filtered records carrying the requested sentiment, joined by a single
space by the join call on line 263. -/
def corpus_for (l : List Record) (s : String) : String :=
  String.intercalate " " ((l.filter (fun r => r.sentiment == s)).map (fun r => r.text))

/-- Threshold rule of analyze_sentiment, app.py lines 39-48, applied to
the polarity score TextBlob computes for the text; the score function
itself is an external lexicon model and is taken as a parameter. -/
def analyze_sentiment (pol : String → ℚ) (text : String) : String × ℚ :=
  let polarity := pol text
  if polarity > 1/10 then ("positive", polarity)
  else if polarity < -(1/10) then ("negative", polarity)
  else ("neutral", polarity)

/-- Pandas DataFrame as this app sees it: rows plus a flag recording
whether the schema columns exist — the bare pd.DataFrame() returned on
load failure has no columns at all. -/
structure Frame where
  hasCols : Bool
  rows : List Record
deriving DecidableEq, Repr

/-- Data loading, app.py lines 26-34: a successful parse yields the
frame with its columns; any exception is caught, an error banner is
shown (the returned Bool), and the empty column-less DataFrame is
substituted. -/
def load_data (src : Option (List Record)) : Frame × Bool :=
  match src with
  | some rs => (⟨true, rs⟩, false)
  | none => (⟨false, []⟩, true)

/-- Sidebar airline options, app.py line 150: the literal All followed
by the sorted distinct airline labels; evaluating the airline column of
a column-less frame raises KeyError. -/
def allAirlinesOpts (f : Frame) : Except String (List String) :=
  if f.hasCols then
    Except.ok ("All" ::
      ((f.rows.map (fun r => r.airline)).dedup.mergeSort (fun a b => decide (a ≤ b))))
  else Except.error "KeyError: airline"

/-- Date bounds read in the sidebar, app.py lines 158-159; the
tweet_created column of a column-less frame raises KeyError. -/
def dateBounds (f : Frame) : Except String (Int × Int) :=
  if f.hasCols then
    match (f.rows.map (fun r => r.created_at)).min?, (f.rows.map (fun r => r.created_at)).max? with
    | some a, some b => Except.ok (a, b)
    | _, _ => Except.error "NaT: empty column has no date bounds"
  else Except.error "KeyError: tweet_created"

/-- Modelled from the spec: the Text Aggregator contract of section 4.5
— the text of every record whose ground-truth sentiment equals the
requested value, in record order, joined by whitespace, and the empty
string when no record matches. -/
def corpusSpec : List Record → String → String
  | [], _ => ""
  | r :: rs, s =>
    if r.sentiment = s then
      if rs.any (fun x => x.sentiment == s) then r.text ++ " " ++ corpusSpec rs s
      else r.text
    else corpusSpec rs s

/-- Tail of a whitespace join: the separator-prefixed concatenation
that a join appends after its first element. -/
def sepJoin : List String → String
  | [] => ""
  | a :: as => " " ++ a ++ sepJoin as

/-- Concrete records used in witnesses and counterexamples. -/
def recA : Record := ⟨"good flight", "A", "positive", 0⟩

def recB : Record := ⟨"late and lost luggage", "B", "negative", 2⟩

def recAll : Record := ⟨"boarding soon", "All", "neutral", 0⟩

def storeA : Store := ⟨[recA]⟩

theorem airlineStep_sublist (sel : String) (l : List Record) :
    List.Sublist (airlineStep sel l) l := by
  unfold airlineStep
  split
  · exact List.filter_sublist l
  · exact List.Sublist.refl l

theorem dateStep_ok_sublist {dr : Option (List Int)} {l m : List Record}
    (h : dateStep dr l = Except.ok m) : List.Sublist m l := by
  rcases dr with _ | ds
  · simp [dateStep] at h
  · rcases ds with _ | ⟨a, _ | ⟨b, _ | ⟨c, t⟩⟩⟩ <;> simp [dateStep] at h <;> subst h
    · exact List.Sublist.refl l
    · exact List.Sublist.refl l
    · exact List.filter_sublist l
    · exact List.Sublist.refl l

theorem sentimentStep_sublist (ss : List String) (l : List Record) :
    List.Sublist (sentimentStep ss l) l := by
  unfold sentimentStep
  split
  · exact List.Sublist.refl l
  · exact List.filter_sublist l

theorem dateStep_some_ok (ds : List Int) (l : List Record) :
    ∃ m, dateStep (some ds) l = Except.ok m := by
  rcases ds with _ | ⟨a, _ | ⟨b, _ | ⟨c, t⟩⟩⟩ <;> simp [dateStep]

theorem dateStep_not_two (ds : List Int) (l : List Record) (h : ds.length ≠ 2) :
    dateStep (some ds) l = Except.ok l := by
  rcases ds with _ | ⟨a, _ | ⟨b, _ | ⟨c, t⟩⟩⟩ <;> simp [dateStep] at h ⊢

/-- C1 counterexample: on a store holding one record, the filter state
whose sentiment_set is empty returns that record, not the empty
sequence — the code treats an empty selection as no restriction. -/
theorem empty_sentiment_set_counterexample :
    applyFilters storeA ⟨"All", some [], []⟩ = Except.ok [recA] ∧
    applyFilters storeA ⟨"All", some [], []⟩ ≠ Except.ok [] := by
  constructor
  · simp [applyFilters, dateStep, airlineStep, sentimentStep, storeA]
  · simp [applyFilters, dateStep, airlineStep, sentimentStep, storeA]

/-- C1 (amended): an empty sentiment_set imposes no sentiment
restriction at all — applyFilters then returns exactly the result of the
airline and date predicates, every surviving record included. -/
theorem empty_sentiment_set_no_restriction (s : Store) (a : String) (dr : Option (List Int)) :
    applyFilters s ⟨a, dr, []⟩ = dateStep dr (airlineStep a s.records) := by
  rcases hd : dateStep dr (airlineStep a s.records) with e | m <;>
    simp [applyFilters, hd, sentimentStep]

/-- C2 counterexample: on the empty filtered set the share computation
raises ZeroDivisionError instead of being defined as 0. -/
theorem zero_total_share_counterexample :
    shareFor [] "positive" = Except.error "ZeroDivisionError: division by zero" ∧
    shareFor ([] : List Record) "positive" ≠ Except.ok 0 := by
  constructor
  · rfl
  · simp [shareFor]

/-- C2 (amended): when total_count is 0 every share computation raises
ZeroDivisionError (the code has no zero guard); when total_count is
positive each share equals count divided by total_count and lies in
[0, 1]. -/
theorem share_division (l : List Record) (s : String) :
    (l.length = 0 → shareFor l s = Except.error "ZeroDivisionError: division by zero") ∧
    (0 < l.length → shareFor l s = Except.ok ((countBy l s : ℚ) / (l.length : ℚ)) ∧
      0 ≤ shareVal l s ∧ shareVal l s ≤ 1) := by
  constructor
  · intro h
    simp [shareFor, h]
  · intro h
    have hne : l.length ≠ 0 := Nat.pos_iff_ne_zero.mp h
    refine ⟨by simp [shareFor, hne], ?_, ?_⟩
    · unfold shareVal
      positivity
    · unfold shareVal
      rw [div_le_one (by exact_mod_cast h)]
      exact_mod_cast List.length_filter_le _ l

/-- C2 amended witness: instantiation at the empty list and at a
one-record list. -/
theorem share_division_witness :
    shareFor [] "positive" = Except.error "ZeroDivisionError: division by zero" ∧
    (shareFor [recA] "positive" = Except.ok ((countBy [recA] "positive" : ℚ) / (([recA] : List Record).length : ℚ)) ∧
      0 ≤ shareVal [recA] "positive" ∧ shareVal [recA] "positive" ≤ 1) :=
  ⟨(share_division [] "positive").1 rfl, (share_division [recA] "positive").2 (by decide)⟩

/-- C3: a failed load shows the error banner and substitutes the empty
column-less DataFrame, but the sidebar then evaluates the airline and
tweet_created columns of that frame, which raises KeyError — the
interface does not degrade to an empty state without raising. -/
theorem load_failure_sidebar_raises :
    load_data none = (Frame.mk false [], true) ∧
    allAirlinesOpts (load_data none).1 = Except.error "KeyError: airline" ∧
    dateBounds (load_data none).1 = Except.error "KeyError: tweet_created" :=
  ⟨rfl, rfl, rfl⟩

/-- C4 counterexample: an absent (None) date_range makes the filter
pipeline raise TypeError at len(date_range) — applyFilters is not total
over syntactically valid filter states. -/
theorem date_range_none_counterexample :
    applyFilters storeA ⟨"All", none, ["positive", "neutral", "negative"]⟩ =
      Except.error "TypeError: object of type NoneType has no len" := rfl

/-- C4 (amended): whenever date_range is present as a sequence the
pipeline never raises, and an incomplete sequence (length other than 2) is
treated as no date restriction; an absent (None) date_range raises
TypeError. -/
theorem date_range_incomplete_no_restriction (s : Store) (a : String) (ds : List Int)
    (ss : List String) :
    (∃ m, applyFilters s ⟨a, some ds, ss⟩ = Except.ok m) ∧
    (ds.length ≠ 2 →
      applyFilters s ⟨a, some ds, ss⟩ = Except.ok (sentimentStep ss (airlineStep a s.records))) ∧
    applyFilters s ⟨a, none, ss⟩ =
      Except.error "TypeError: object of type NoneType has no len" := by
  refine ⟨?_, ?_, ?_⟩
  · obtain ⟨m, hm⟩ := dateStep_some_ok ds (airlineStep a s.records)
    exact ⟨sentimentStep ss m, by simp [applyFilters, hm]⟩
  · intro h
    have hm := dateStep_not_two ds (airlineStep a s.records) h
    simp [applyFilters, hm]
  · simp [applyFilters, dateStep]

/-- C4 amended witness: instantiation at a one-record store with an
empty date sequence. -/
theorem date_range_incomplete_witness :
    (∃ m, applyFilters storeA ⟨"All", some [], ["positive"]⟩ = Except.ok m) ∧
    applyFilters storeA ⟨"All", some [], ["positive"]⟩ =
      Except.ok (sentimentStep ["positive"] (airlineStep "All" storeA.records)) :=
  ⟨(date_range_incomplete_no_restriction storeA "All" [] ["positive"]).1,
   (date_range_incomplete_no_restriction storeA "All" [] ["positive"]).2.1 (by decide)⟩

/-- C5: whatever polarity the external model assigns to the text, the
returned label is positive exactly when the polarity exceeds 1/10,
negative exactly when it is below -1/10, neutral exactly when the
polarity lies in the closed interval [-1/10, 1/10] (so a polarity of
exactly 1/10 is neutral), and the returned score is the polarity
unchanged. -/
theorem classifier_threshold_rule (pol : String → ℚ) (t : String) :
    ((analyze_sentiment pol t).1 = "positive" ↔ 1/10 < pol t) ∧
    ((analyze_sentiment pol t).1 = "negative" ↔ pol t < -(1/10)) ∧
    ((analyze_sentiment pol t).1 = "neutral" ↔ (pol t ≤ 1/10 ∧ -(1/10) ≤ pol t)) ∧
    (analyze_sentiment pol t).2 = pol t := by
  rw [show analyze_sentiment pol t =
    (if pol t > 1/10 then ("positive", pol t)
     else if pol t < -(1/10) then ("negative", pol t)
     else ("neutral", pol t)) from rfl]
  split_ifs with h1 h2
  · exact ⟨⟨fun _ => h1, fun _ => rfl⟩,
      ⟨fun hh => absurd hh (by simp), fun hh => absurd hh (by linarith)⟩,
      ⟨fun hh => absurd hh (by simp), fun hh => absurd h1 (not_lt.mpr hh.1)⟩, rfl⟩
  · exact ⟨⟨fun hh => absurd hh (by simp), fun hh => absurd hh h1⟩,
      ⟨fun _ => h2, fun _ => rfl⟩,
      ⟨fun hh => absurd hh (by simp), fun hh => absurd h2 (not_lt.mpr hh.2)⟩, rfl⟩
  · exact ⟨⟨fun hh => absurd hh (by simp), fun hh => absurd hh h1⟩,
      ⟨fun hh => absurd hh (by simp), fun hh => absurd hh h2⟩,
      ⟨fun _ => ⟨not_lt.mp h1, not_lt.mp h2⟩, fun _ => rfl⟩, rfl⟩

/-- C6 counterexample: with one positive record on day 0 and one
negative record on day 2, the unstacked timeseries has no bucket for the
in-between day 1, and the day-0 bucket holds NaN (none), not 0, for the
negative sentiment. -/
theorem timeseries_counterexample :
    ((1 : Int) ∉ timeDays [recA, recB]) ∧
    timeCell [recA, recB] 0 "negative" ≠ some 0 := by
  constructor
  · simp [timeDays, List.mem_dedup, List.mem_mergeSort, List.mem_map, recA, recB]
  · simp [timeCell, countOn, recA, recB]

/-- C6 (amended): the timeseries row index holds exactly the calendar
days carrying at least one filtered record (a spanned day with no
records is absent, the grid is sparse), and a cell holds a count exactly
when that count is positive — a (day, sentiment) pair with no records
yields an absent (NaN) cell, never a reported 0. -/
theorem timeseries_sparse_grid (l : List Record) (d : Int) (s : String) :
    (d ∈ timeDays l ↔ ∃ r ∈ l, r.created_at = d) ∧
    (timeCell l d s = none ↔ countOn l d s = 0) ∧
    (∀ n, timeCell l d s = some n → 0 < n ∧ countOn l d s = n) := by
  refine ⟨?_, ?_, ?_⟩
  · simp [timeDays, List.mem_dedup, List.mem_mergeSort, List.mem_map]
  · unfold timeCell
    split <;> simp_all
  · intro n hn
    unfold timeCell at hn
    split at hn
    · cases hn
    · cases hn
      rename_i h0
      exact ⟨Nat.pos_of_ne_zero h0, rfl⟩

/-- C6 amended witness: instantiation at a one-record list, day 0,
sentiment positive. -/
theorem timeseries_sparse_grid_witness :
    ((0 : Int) ∈ timeDays [recA] ↔ ∃ r ∈ [recA], r.created_at = 0) ∧
    (0 < 1 ∧ countOn [recA] 0 "positive" = 1) :=
  ⟨(timeseries_sparse_grid [recA] 0 "positive").1,
   (timeseries_sparse_grid [recA] 0 "positive").2.2 1 (by decide)⟩

/-- C7: every record sequence the filter pipeline returns is a sublist
of the record store in its original order — no duplication, no
re-ordering, a stable filter. -/
theorem apply_returns_sublist (s : Store) (f : FilterState) (l : List Record)
    (h : applyFilters s f = Except.ok l) : List.Sublist l s.records := by
  unfold applyFilters at h
  rcases hd : dateStep f.date_range (airlineStep f.airline s.records) with e | m
  · rw [hd] at h
    cases h
  · rw [hd] at h
    injection h with h2
    subst h2
    exact ((sentimentStep_sublist _ m).trans (dateStep_ok_sublist hd)).trans
      (airlineStep_sublist _ _)

/-- C7 witness: instantiation at a one-record store and a fully
permissive filter. -/
theorem apply_returns_sublist_witness : List.Sublist [recA] storeA.records :=
  apply_returns_sublist storeA ⟨"All", some [], ["positive"]⟩ [recA] (by rfl)

theorem countBy_cons (r : Record) (l : List Record) (s : String) :
    countBy (r :: l) s = (if r.sentiment = s then 1 else 0) + countBy l s := by
  by_cases h : r.sentiment = s <;> (simp [countBy, List.filter_cons, h]; try omega)

theorem countBy_partition (l : List Record)
    (h : ∀ r ∈ l, r.sentiment = "positive" ∨ r.sentiment = "neutral" ∨
      r.sentiment = "negative") :
    countBy l "positive" + countBy l "neutral" + countBy l "negative" = l.length := by
  induction l with
  | nil => rfl
  | cons r t ih =>
    have hr := h r (List.mem_cons_self r t)
    have ih2 := ih (fun x hx => h x (List.mem_cons_of_mem r hx))
    rcases hr with hp | hp | hp <;> simp [countBy_cons, hp] <;> omega

/-- C8: when every filtered record carries one of the three sentiment
labels, the three sentiment counts sum to the total count; and on a
non-empty filtered set the three shares are well defined and sum to
exactly 1. -/
theorem aggregator_consistency (l : List Record)
    (h : ∀ r ∈ l, r.sentiment = "positive" ∨ r.sentiment = "neutral" ∨
      r.sentiment = "negative") :
    countBy l "positive" + countBy l "neutral" + countBy l "negative" = l.length ∧
    (0 < l.length →
      (∀ s, shareFor l s = Except.ok (shareVal l s)) ∧
      shareVal l "positive" + shareVal l "neutral" + shareVal l "negative" = 1) := by
  refine ⟨countBy_partition l h, fun hl => ⟨?_, ?_⟩⟩
  · intro s
    simp [shareFor, shareVal, Nat.pos_iff_ne_zero.mp hl]
  · have hc := countBy_partition l h
    have hne : (l.length : ℚ) ≠ 0 := Nat.cast_ne_zero.mpr (Nat.pos_iff_ne_zero.mp hl)
    unfold shareVal
    rw [div_add_div_same, div_add_div_same, div_eq_one_iff_eq hne]
    exact_mod_cast hc

/-- C8 witness: instantiation at a one-record list carrying the positive
sentiment. -/
theorem aggregator_consistency_witness :
    (countBy [recA] "positive" + countBy [recA] "neutral" + countBy [recA] "negative" =
      ([recA] : List Record).length) ∧
    ((∀ s, shareFor [recA] s = Except.ok (shareVal [recA] s)) ∧
      shareVal [recA] "positive" + shareVal [recA] "neutral" + shareVal [recA] "negative" = 1) :=
  ⟨(aggregator_consistency [recA] (by decide)).1,
   (aggregator_consistency [recA] (by decide)).2 (by decide)⟩

/-- C10: the wildcard label shadows a genuine airline named All — on a
store containing records whose airline column is literally All, the
airline stage with selection All keeps every record, and the whole
pipeline with selection All (and no date or sentiment restriction)
returns the entire store, so that airline can never be selected
individually. -/
theorem wildcard_shadows_airline (s : Store) (_h : ∃ r ∈ s.records, r.airline = "All") :
    airlineStep "All" s.records = s.records ∧
    applyFilters s ⟨"All", some [], []⟩ = Except.ok s.records := by
  refine ⟨?_, ?_⟩
  · simp [airlineStep]
  · simp [applyFilters, dateStep, airlineStep, sentimentStep]

/-- C10 witness: instantiation at a store holding a record whose airline
label is literally All. -/
theorem wildcard_shadows_airline_witness :
    airlineStep "All" (Store.mk [recAll, recA]).records = (Store.mk [recAll, recA]).records ∧
    applyFilters (Store.mk [recAll, recA]) ⟨"All", some [], []⟩ =
      Except.ok (Store.mk [recAll, recA]).records :=
  wildcard_shadows_airline (Store.mk [recAll, recA]) ⟨recAll, by simp [recAll]⟩

theorem intercalate_go_eq (ts : List String) (acc : String) :
    String.intercalate.go acc " " ts = acc ++ sepJoin ts := by
  induction ts generalizing acc with
  | nil => simp [String.intercalate.go, sepJoin]
  | cons a as ih =>
    rw [show String.intercalate.go acc " " (a :: as) =
      String.intercalate.go (acc ++ " " ++ a) " " as from rfl, ih]
    simp [sepJoin, String.append_assoc]

theorem intercalate_space_cons (t : String) (ts : List String) :
    String.intercalate " " (t :: ts) = t ++ sepJoin ts := by
  rw [show String.intercalate " " (t :: ts) = String.intercalate.go t " " ts from rfl]
  exact intercalate_go_eq ts t

/-- C9: the corpus the code builds by joining the text column equals the
corpus the spec describes — the text of exactly the records whose
ground-truth sentiment equals the requested value, in record order,
space-joined, and the empty string when no record matches. -/
theorem corpus_for_matches_spec (l : List Record) (s : String) :
    corpus_for l s = corpusSpec l s := by
  induction l with
  | nil => rfl
  | cons r rs ih =>
    by_cases h : r.sentiment = s
    · have hf : (r :: rs).filter (fun x => x.sentiment == s) =
          r :: rs.filter (fun x => x.sentiment == s) := by
        simp [List.filter_cons, h]
      by_cases hm : rs.any (fun x => x.sentiment == s) = true
      · obtain ⟨x, hx, hpx⟩ := List.any_eq_true.mp hm
        obtain ⟨t, ts, hts⟩ : ∃ t ts, rs.filter (fun x => x.sentiment == s) = t :: ts := by
          rcases hcase : rs.filter (fun x => x.sentiment == s) with _ | ⟨t, ts⟩
          · exact absurd hpx ((List.filter_eq_nil_iff.mp hcase) x hx)
          · exact ⟨t, ts, hcase⟩
        have hspec : corpusSpec (r :: rs) s = r.text ++ " " ++ corpusSpec rs s := by
          simp [corpusSpec, h, hm]
        have hcf : corpus_for rs s = t.text ++ sepJoin (ts.map (fun x => x.text)) := by
          unfold corpus_for
          rw [hts, List.map_cons, intercalate_space_cons]
        have hlhs : corpus_for (r :: rs) s =
            r.text ++ sepJoin ((rs.filter (fun x => x.sentiment == s)).map
              (fun x => x.text)) := by
          unfold corpus_for
          rw [hf, List.map_cons, intercalate_space_cons]
        rw [hlhs, hspec, ← ih, hcf, hts, List.map_cons]
        simp [sepJoin, String.append_assoc]
      · have hnil : rs.filter (fun x => x.sentiment == s) = [] := by
          rw [List.filter_eq_nil_iff]
          intro a ha hpa
          exact hm (List.any_eq_true.mpr ⟨a, ha, hpa⟩)
        have hspec : corpusSpec (r :: rs) s = r.text := by
          simp [corpusSpec, h]
          intro x hx hpx
          exact absurd (List.any_eq_true.mpr ⟨x, hx, by simp [hpx]⟩) hm
        have hlhs : corpus_for (r :: rs) s = r.text ++ sepJoin [] := by
          unfold corpus_for
          rw [hf, hnil, List.map_cons]
          exact intercalate_space_cons r.text []
        rw [hlhs, hspec]
        simp [sepJoin]
    · have hf : (r :: rs).filter (fun x => x.sentiment == s) =
          rs.filter (fun x => x.sentiment == s) := by
        simp [List.filter_cons, h]
      have e1 : corpus_for (r :: rs) s = corpus_for rs s := by
        unfold corpus_for
        rw [hf]
      have e2 : corpusSpec (r :: rs) s = corpusSpec rs s := by
        simp [corpusSpec, h]
      rw [e1, ih, e2]
